import Mathlib

set_option maxRecDepth 4000

/-!
Verification of the configuration-generation engine in `scripts/render.py`:
a shallow embedding of the descriptor loader/validator, the location
normalizer, the nginx block builders, the server-block composer, the
template renderer and the top-level run accounting, together with theorems
settling the specified properties.

Conventions of the embedding:
* YAML scalar/collection values are modelled by the inductive `Yaml`;
  Python truthiness is `pyTruthy`, Python `str()` is `pyStr` (for nested
  lists/mappings `pyRepr` approximates Python `repr`, which is only reached
  on pathological descriptors and is irrelevant to every claim).
* Python string methods used by the source are modelled character-exactly
  where the source exercises them: `strip`/`rstrip` (`pyStrip`/`pyRstrip`),
  `lower` (`pyLower`, ASCII case mapping), `splitlines` (`pySplitlines`),
  substring membership (`containsSub`), `str.replace` (`pyReplace`).
* The source keeps some descriptor fields as raw YAML values and converts
  them with f-string interpolation (that is, `str()`) at every use site; the
  embedding applies `pyStr` once at record-construction time, which is
  observably equivalent because every later use of those fields in the
  source is such an interpolation.
* The filesystem is modelled as an association list `Store` from path
  strings to file contents; a write is a whole-file replacement.
-/

/-- A YAML value as produced by a safe loader: scalars, sequences and
string-keyed mappings. -/
inductive Yaml where
  | null
  | bool (b : Bool)
  | int (n : Int)
  | str (s : String)
  | list (xs : List Yaml)
  | map (kvs : List (String × Yaml))
deriving Repr

/-- Python truthiness of a YAML value (`bool(v)`): `None`, `False`, `0`,
the empty string, the empty list and the empty mapping are falsy. -/
def pyTruthy : Yaml → Bool
  | .null => false
  | .bool b => b
  | .int n => n != 0
  | .str s => s != ""
  | .list xs => !xs.isEmpty
  | .map kvs => !kvs.isEmpty

/-- Escape a character the way Python `repr` quotes it inside a
single-quoted string literal (backslash and quote escaped). -/
def reprEscChar (c : Char) : String :=
  if c = '\\' then "\\\\"
  else if c = '\x27' then "\\\x27"
  else String.singleton c

mutual

/-- Python `repr` of a YAML value (approximate for strings: always
single-quoted with backslash/quote escaping). Only reachable from `pyStr`
on non-scalar values, which no claim exercises. -/
def pyRepr : Yaml → String
  | .null => "None"
  | .bool b => if b then "True" else "False"
  | .int n => toString n
  | .str s => "\x27" ++ String.join (s.data.map reprEscChar) ++ "\x27"
  | .list xs => "[" ++ pyReprList xs ++ "]"
  | .map kvs => "\x7b" ++ pyReprMap kvs ++ "\x7d"

/-- Comma-joined `repr` of the elements of a YAML sequence. -/
def pyReprList : List Yaml → String
  | [] => ""
  | [x] => pyRepr x
  | x :: rest => pyRepr x ++ ", " ++ pyReprList rest

/-- Comma-joined `repr` of the entries of a YAML mapping. -/
def pyReprMap : List (String × Yaml) → String
  | [] => ""
  | [(k, v)] => pyRepr (.str k) ++ ": " ++ pyRepr v
  | (k, v) :: rest => pyRepr (.str k) ++ ": " ++ pyRepr v ++ ", " ++ pyReprMap rest

end

/-- Python `str()` of a YAML value. -/
def pyStr : Yaml → String
  | .str s => s
  | v => pyRepr v

/-- The whitespace characters stripped by Python `str.strip` (ASCII range). -/
def pyIsSpaceChar (c : Char) : Bool :=
  c = ' ' || c = '\t' || c = '\n' || c = '\r' || c = '\x0b' || c = '\x0c'

/-- Python `str.rstrip()`. -/
def pyRstrip (s : String) : String :=
  String.mk ((s.data.reverse.dropWhile pyIsSpaceChar).reverse)

/-- Python `str.strip()`. -/
def pyStrip (s : String) : String :=
  String.mk (((s.data.dropWhile pyIsSpaceChar).reverse.dropWhile pyIsSpaceChar).reverse)

/-- Python `str.lower()` (ASCII case mapping, which is all the source
exercises: the container-orchestration test words are ASCII). -/
def pyLower (s : String) : String :=
  String.mk (s.data.map Char.toLower)

/-- Python substring membership `p in t`. -/
def containsSub (t p : String) : Bool :=
  decide (p.data <:+: t.data)

/-- The line separators recognised by Python `str.splitlines`. -/
def pyIsLineSep (c : Char) : Bool :=
  c = '\n' || c = '\r' || c = '\x0b' || c = '\x0c' ||
  c = '\x1c' || c = '\x1d' || c = '\x1e' || c = '\x85' ||
  c = '\u2028' || c = '\u2029'

/-- Collapse each carriage-return/line-feed pair into a single line feed,
so that the pair counts as one line break, as `str.splitlines` does. -/
def normalizeCRLF : List Char → List Char
  | '\r' :: '\n' :: rest => '\n' :: normalizeCRLF rest
  | c :: rest => c :: normalizeCRLF rest
  | [] => []

/-- Worker for `pySplitlines`: accumulates the current line (reversed);
the final accumulator yields a line only when non-empty (no trailing empty
line). -/
def slGo (acc : List Char) : List Char → List (List Char)
  | [] => if acc.isEmpty then [] else [acc.reverse]
  | c :: rest =>
    if pyIsLineSep c then acc.reverse :: slGo [] rest
    else slGo (c :: acc) rest

/-- Python `str.splitlines()`: no trailing empty line, and the empty string
has no lines at all. -/
def pySplitlines (s : String) : List String :=
  (slGo [] (normalizeCRLF s.data)).map String.mk

/-- Worker for `pyReplace`, structurally recursive on a fuel argument that
bounds the length of the text (each step consumes at least one character
and exactly one unit of fuel, so fuel never runs out when it starts at the
text's length): left-to-right, non-overlapping, the replaced text is not
rescanned; the empty pattern matches at every position. -/
def repGo : Nat → List Char → List Char → List Char → List Char
  | _, [], p, r => if p.isEmpty then r else []
  | 0, t, _, _ => t
  | fuel + 1, c :: rest, p, r =>
    if p ≠ [] ∧ p.isPrefixOf (c :: rest) then
      r ++ repGo fuel ((c :: rest).drop p.length) p r
    else if p.isEmpty then
      r ++ c :: repGo fuel rest p r
    else
      c :: repGo fuel rest p r

/-- Python `str.replace(pat, rep)` on character lists. -/
def replaceL (t p r : List Char) : List Char :=
  repGo t.length t p r

/-- Python `str.replace` on strings. -/
def pyReplace (s pat rep : String) : String :=
  String.mk (replaceL s.data pat.data rep.data)

/-- A normalized custom location rule (the mappings produced by
`parse_locations`): `path`, `proxy_pass` (empty string when proxying is
disabled) and `extra` trailing directive text. -/
structure LocRule where
  path : String
  proxyPass : String
  extra : String
deriving Repr, DecidableEq

/-- Python `dict.get(k)` on a parsed YAML mapping: `None` when absent. -/
def yamlGetRaw (kvs : List (String × Yaml)) (k : String) : Yaml :=
  (List.lookup k kvs).getD Yaml.null

/-- The default proxy target `http://<upstream_host>:<upstream_port>`. -/
def locDefaultProxy (host port : String) : String :=
  "http://" ++ host ++ ":" ++ port

/-- The `proxy_pass` resolution of `parse_locations`: the literal boolean
false disables proxying, a truthy value is stringified and stripped, any
other (falsy) value falls back to the default target. -/
def resolveProxyPass (defaultProxy : String) (ppv : Yaml) : String :=
  match ppv with
  | .bool false => ""
  | _ => if pyTruthy ppv then pyStrip (pyStr ppv) else defaultProxy

/-- The `strip_prefix` normalization of `parse_locations`: strings are
compared case-insensitively against the truthy words, anything else is
taken by truthiness. -/
def stripPfxFlag (sp : Yaml) : Bool :=
  match sp with
  | .str s => pyLower s = "true" || pyLower s = "yes" || pyLower s = "1" || pyLower s = "on"
  | v => pyTruthy v

/-- The normalization of one surviving location entry (truthy `path`):
`proxy_pass` resolution, optional trailing-separator forcing for
`strip_prefix`, and right-trimmed `extra` text. -/
def normalizeLocEntry (defaultProxy : String) (kvs : List (String × Yaml)) : LocRule :=
  let ppv := yamlGetRaw kvs "proxy_pass"
  let proxyPass0 := resolveProxyPass defaultProxy ppv
  let stripPfx := stripPfxFlag (yamlGetRaw kvs "strip_prefix")
  let proxyPass :=
    if stripPfx && proxyPass0 != "" && !proxyPass0.endsWith "/" then proxyPass0 ++ "/"
    else proxyPass0
  let extraV := yamlGetRaw kvs "extra"
  let extra := if pyTruthy extraV then extraV else Yaml.str ""
  ⟨pyStrip (pyStr (yamlGetRaw kvs "path")), proxyPass, pyRstrip (pyStr extra)⟩

/-- The loop body of `parse_locations`: normalizes each entry, dropping
non-mapping entries and entries without a truthy `path` with a warning
(second component) while keeping the surviving rules in input order. -/
def parseLocsGo (defaultProxy : String) : List Yaml → Nat → List LocRule × List String
  | [], _ => ([], [])
  | e :: rest, idx =>
    match e with
    | .map kvs =>
      let path := yamlGetRaw kvs "path"
      if !pyTruthy path then
        let acc := parseLocsGo defaultProxy rest (idx + 1)
        (acc.1, ("Ignoring locations[" ++ toString idx ++ "] (missing path)") :: acc.2)
      else
        let acc := parseLocsGo defaultProxy rest (idx + 1)
        (normalizeLocEntry defaultProxy kvs :: acc.1, acc.2)
    | _ =>
      let acc := parseLocsGo defaultProxy rest (idx + 1)
      (acc.1, ("Ignoring locations[" ++ toString idx ++ "] (expected mapping)") :: acc.2)

/-- `parse_locations` with its warning log: a falsy `locations` value yields
no rules silently; a truthy non-list yields no rules with a warning. -/
def parseLocationsLog (raw : Yaml) (host port : String) : List LocRule × List String :=
  if !pyTruthy raw then ([], [])
  else
    match raw with
    | .list entries => parseLocsGo (locDefaultProxy host port) entries 1
    | _ => ([], ["Ignoring locations because it is not a list"])

/-- `parse_locations`: the normalized rules only. -/
def parseLocations (raw : Yaml) (host port : String) : List LocRule :=
  (parseLocationsLog raw host port).1

/-- The validated service record returned by `parse_service` (keys of the
Python dict become fields). -/
structure Svc where
  NAME : String
  DOMAIN : String
  UPSTREAM_HOST : String
  UPSTREAM_PORT : String
  WORKING_DIR : String
  USER : String
  START_CMD : String
  STOP_CMD : String
  TYPE : String
  REMAIN_AFTER_EXIT : String
  RESTART : String
  HEALTH_PATH : String
  STATIC_ROOT : String
  MIGRATE_CMD : String
  ALLOW_PLAIN_HTTP : Bool
  LOCATIONS : List LocRule
deriving Repr, DecidableEq

/-- `_get` of `parse_service`: mapping lookup where a missing key or an
explicit `None` both give the default. -/
def svcGet (kvs : List (String × Yaml)) (k : String) (dflt : Yaml) : Yaml :=
  match List.lookup k kvs with
  | some v => match v with | Yaml.null => dflt | w => w
  | none => dflt

/-- `_normalize_bool` of `parse_service`. -/
def normalizeBool (v : Yaml) : Bool :=
  match v with
  | .bool b => b
  | .str s => pyLower s = "true" || pyLower s = "yes" || pyLower s = "1" || pyLower s = "on"
  | _ => false

/-- The container-orchestration test of `parse_service`, applied to the
lowercased start command. -/
def isComposeCmd (lowered : String) : Bool :=
  containsSub lowered "docker compose" || containsSub lowered "docker-compose"

/-- Python type name (for the non-mapping diagnostic of `parse_service`). -/
def pyTypeName : Yaml → String
  | .null => "NoneType"
  | .bool _ => "bool"
  | .int _ => "int"
  | .str _ => "str"
  | .list _ => "list"
  | .map _ => "dict"

/-- The quoted-empty sentinel collapse applied to `static_root` and
`migrate_cmd`: an explicit two-character quote literal becomes empty. -/
def collapseSentinel (v : Yaml) : Yaml :=
  match v with
  | .str s => if s = "\"\"" || s = "\x27\x27" then Yaml.str "" else Yaml.str s
  | w => w

/-- The required-field pairs of `parse_service`, in checking order. -/
def requiredFields (kvs : List (String × Yaml)) : List (String × Yaml) :=
  [("name", svcGet kvs "name" (Yaml.str "")), ("domain", svcGet kvs "domain" (Yaml.str "")),
   ("upstream_port", svcGet kvs "upstream_port" (Yaml.str "")),
   ("start_cmd", svcGet kvs "start_cmd" (Yaml.str "")),
   ("working_dir", svcGet kvs "working_dir" (Yaml.str ""))]

/-- The names of the required fields that are absent (falsy) in a
descriptor mapping, in checking order. -/
def missingRequired (kvs : List (String × Yaml)) : List String :=
  ((requiredFields kvs).filter (fun kv => !pyTruthy kv.2)).map Prod.fst

/-- `parse_service` on a loaded YAML document (`fname` is the file's base
name, used in diagnostics). A skip in lenient mode and an abort in strict
mode carry the same message, so both are modelled as `Except.error`. -/
def parseService (fname : String) (doc : Yaml) : Except String Svc :=
  let data := if pyTruthy doc then doc else Yaml.map []
  match data with
  | Yaml.map kvs =>
    let name := svcGet kvs "name" (Yaml.str "")
    let domain := svcGet kvs "domain" (Yaml.str "")
    let upstreamHostRaw := svcGet kvs "upstream_host" (Yaml.str "")
    let upstream_host := if pyTruthy upstreamHostRaw then pyStr upstreamHostRaw else "127.0.0.1"
    let upstream_port := svcGet kvs "upstream_port" (Yaml.str "")
    let working_dir := svcGet kvs "working_dir" (Yaml.str "")
    let userRaw := svcGet kvs "user" (Yaml.str "")
    let user := if pyTruthy userRaw then pyStr userRaw else "www-data"
    let start_cmd := svcGet kvs "start_cmd" (Yaml.str "")
    let stopRaw := svcGet kvs "stop_cmd" (Yaml.str "")
    let stop_cmd0 := if pyTruthy stopRaw then pyStr stopRaw else "/bin/true"
    let healthRaw := svcGet kvs "health_path" (Yaml.str "")
    let health_path := if pyTruthy healthRaw then pyStr healthRaw else "/health"
    let static_root0 := svcGet kvs "static_root" (Yaml.str "")
    let migrate_cmd0 := svcGet kvs "migrate_cmd" (Yaml.str "")
    let allow_plain_http := normalizeBool (svcGet kvs "allow_plain_http" (Yaml.str ""))
    let locations := parseLocations (svcGet kvs "locations" (Yaml.list [])) upstream_host (pyStr upstream_port)
    let start_cmd_lower := pyLower (if pyTruthy start_cmd then pyStr start_cmd else "")
    let is_compose := isComposeCmd start_cmd_lower
    let svc_type := if is_compose then "oneshot" else "simple"
    let remain_after_exit := if is_compose then "yes" else "no"
    let restart := if is_compose then "no" else "always"
    let static_root1 := collapseSentinel static_root0
    let migrate_cmd1 := collapseSentinel migrate_cmd0
    let stop_cmd := if stop_cmd0 = "\"\"" || stop_cmd0 = "\x27\x27" || stop_cmd0 = "" then "/bin/true" else stop_cmd0
    let missing := missingRequired kvs
    if missing.isEmpty then
      Except.ok
        { NAME := pyStr name
          DOMAIN := pyStr domain
          UPSTREAM_HOST := upstream_host
          UPSTREAM_PORT := pyStr upstream_port
          WORKING_DIR := pyStr working_dir
          USER := user
          START_CMD := pyStr start_cmd
          STOP_CMD := stop_cmd
          TYPE := svc_type
          REMAIN_AFTER_EXIT := remain_after_exit
          RESTART := restart
          HEALTH_PATH := health_path
          STATIC_ROOT := if pyTruthy static_root1 then pyStr static_root1 else ""
          MIGRATE_CMD := if pyTruthy migrate_cmd1 then pyStr migrate_cmd1 else ""
          ALLOW_PLAIN_HTTP := allow_plain_http
          LOCATIONS := locations }
    else
      Except.error ("Skipping " ++ fname ++ ": missing " ++ String.intercalate ", " missing)
  | other => Except.error ("Expected mapping in " ++ fname ++ ", got " ++ pyTypeName other)

/-- `build_nginx_blocks`: returns `(root_directive, location_root,
fallback_location)`; the static branch is taken when `static_root` is
truthy (non-empty). -/
def buildNginxBlocks (static_root host port : String) : String × String × String :=
  if static_root != "" then
    ("    root " ++ static_root ++ ";\n    index index.html;",
     "        try_files $uri $uri/ @app;\n        add_header Cache-Control \"no-cache, no-store\";",
     "    location @app \x7b\n        proxy_pass http://" ++ host ++ ":" ++ port ++
       ";\n        proxy_set_header Host $host;\n        proxy_set_header X-Real-IP $remote_addr;\n        proxy_set_header X-Forwarded-For $proxy_add_x_forwarded_for;\n        proxy_set_header X-Forwarded-Proto $scheme;\n    \x7d\n")
  else
    ("",
     "        proxy_pass http://" ++ host ++ ":" ++ port ++
       ";\n        proxy_set_header Host $host;\n        proxy_set_header X-Real-IP $remote_addr;\n        proxy_set_header X-Forwarded-For $proxy_add_x_forwarded_for;\n        proxy_set_header X-Forwarded-Proto $scheme;",
     "")

/-- The `lines` list built by `render_custom_locations` for one rule. -/
def renderLocLines (loc : LocRule) : List String :=
  ["    location " ++ loc.path ++ " \x7b"] ++
  (if loc.proxyPass != "" then
    ["        proxy_pass " ++ loc.proxyPass ++ ";",
     "        proxy_set_header Host $host;",
     "        proxy_set_header X-Real-IP $remote_addr;",
     "        proxy_set_header X-Forwarded-For $proxy_add_x_forwarded_for;",
     "        proxy_set_header X-Forwarded-Proto $scheme;"]
   else []) ++
  (if loc.extra != "" then
    (pySplitlines loc.extra).map (fun raw =>
      let r := pyRstrip raw
      if r != "" then "        " ++ r else "        ")
   else []) ++
  ["    \x7d"]

/-- `render_custom_locations`: blocks joined by blank lines, with a
trailing blank line, or the empty string when there are no rules. -/
def renderCustomLocations (locs : List LocRule) : String :=
  if locs.isEmpty then ""
  else
    String.intercalate "\n\n" (locs.map (fun l => String.intercalate "\n" (renderLocLines l))) ++ "\n\n"

/-- The full (application-carrying) port-80 body of `server_body` inside
`build_server_blocks`. -/
def serverBodyFull (domain health location_root fallback_location extra_locations : String) : String :=
  "server \x7b\n    listen 80;\n    server_name " ++ domain ++
  ";\n\n    # ACME challenge\n    location /.well-known/acme-challenge/ \x7b\n        root /var/www/certbot;\n    \x7d\n\n    # Main location\n    location / \x7b\n" ++
  location_root ++ "\n    \x7d\n\n" ++ fallback_location ++ extra_locations ++
  "    # Health endpoint\n    location " ++ health ++
  " \x7b\n        access_log off;\n        return 200 \"healthy\\n\";\n        add_header Content-Type text/plain;\n    \x7d\n\x7d\n"

/-- The redirect-only port-80 body of `server_body` (ACME passthrough plus
a permanent redirect to the encrypted scheme). -/
def serverBodyRedirect (domain : String) : String :=
  "server \x7b\n    listen 80;\n    server_name " ++ domain ++
  ";\n\n    # ACME challenge\n    location /.well-known/acme-challenge/ \x7b\n        root /var/www/certbot;\n    \x7d\n\n    # Redirect HTTP to HTTPS\n    return 301 https://$host$request_uri;\n\x7d\n"

/-- `server_body`: the conditional expression choosing between the full
body and the redirect body. -/
def serverBody (allow_plain_http include_tls : Bool)
    (domain health location_root fallback_location extra_locations : String) : String :=
  if allow_plain_http || !include_tls then
    serverBodyFull domain health location_root fallback_location extra_locations
  else
    serverBodyRedirect domain

/-- The encrypted (port 443) segment of `build_server_blocks`. -/
def httpsBlockText (domain health root_directive location_root fallback_location extra_locations : String) : String :=
  "server \x7b\n    listen 443 ssl;\n    listen [::]:443 ssl;\n    server_name " ++ domain ++
  ";\n\n    # Certbot paths; adjust if you store certs elsewhere.\n    ssl_certificate /etc/letsencrypt/live/" ++ domain ++
  "/fullchain.pem;\n    ssl_certificate_key /etc/letsencrypt/live/" ++ domain ++
  "/privkey.pem;\n    include /etc/letsencrypt/options-ssl-nginx.conf;\n\n    client_max_body_size 20m;\n    add_header X-Frame-Options \"SAMEORIGIN\" always;\n    add_header X-XSS-Protection \"1; mode=block\" always;\n    add_header X-Content-Type-Options \"nosniff\" always;\n    add_header Referrer-Policy \"no-referrer-when-downgrade\" always;\n    add_header Strict-Transport-Security \"max-age=31536000; includeSubDomains; preload\" always;\n\n" ++
  root_directive ++ "\n    # Main location: either proxies or falls back from static to proxy.\n    location / \x7b\n" ++
  location_root ++ "\n    \x7d\n\n" ++ fallback_location ++ extra_locations ++
  "    # Health endpoint\n    location " ++ health ++
  " \x7b\n        access_log off;\n        return 200 \"healthy\\n\";\n        add_header Content-Type text/plain;\n    \x7d\n\x7d\n"

/-- `build_server_blocks`: the plain segment is `server_body` called with
`include_tls=False`; the encrypted segment is produced only when
`allow_plain_http` is false. -/
def buildServerBlocks (svc : Svc)
    (root_directive location_root fallback_location extra_locations : String) : String × String :=
  let http_block :=
    serverBody svc.ALLOW_PLAIN_HTTP false svc.DOMAIN svc.HEALTH_PATH
      location_root fallback_location extra_locations
  let https_block :=
    if svc.ALLOW_PLAIN_HTTP then ""
    else httpsBlockText svc.DOMAIN svc.HEALTH_PATH root_directive location_root
      fallback_location extra_locations
  (http_block, https_block)

/-- `render_template`'s substitution: each mapping entry `(NAME, val)` in
order replaces every occurrence of `__NAME__` in the current content. -/
def renderTemplate (content : String) (reps : List (String × String)) : String :=
  reps.foldl (fun c kv => pyReplace c ("__" ++ kv.1 ++ "__") kv.2) content

/-- The nginx-template replacement mapping built by `render_service`
(insertion order of the Python dict literal). -/
def nginxReplacements (svc : Svc) : List (String × String) :=
  let blocks := buildNginxBlocks svc.STATIC_ROOT svc.UPSTREAM_HOST svc.UPSTREAM_PORT
  let extra_locations := renderCustomLocations svc.LOCATIONS
  let segs := buildServerBlocks svc blocks.1 blocks.2.1 blocks.2.2 extra_locations
  [("HTTP_BLOCK", segs.1), ("HTTPS_BLOCK", segs.2)]

/-- The systemd-template replacement mapping built by `render_service`. -/
def systemdReplacements (svc : Svc) : List (String × String) :=
  [("NAME", svc.NAME), ("WORKING_DIR", svc.WORKING_DIR), ("USER", svc.USER),
   ("START_CMD", svc.START_CMD), ("STOP_CMD", svc.STOP_CMD), ("TYPE", svc.TYPE),
   ("REMAIN_AFTER_EXIT", svc.REMAIN_AFTER_EXIT), ("RESTART", svc.RESTART)]

/-- The filesystem, as path-to-contents bindings; a later binding for the
same path shadows earlier ones (last write wins). -/
abbrev Store := List (String × String)

/-- Read a file: the newest binding of the path. -/
def getFile (st : Store) (p : String) : Option String :=
  List.lookup p st

/-- Write a file: whole-file replacement of any previous binding. -/
def setFile (st : Store) (p c : String) : Store :=
  (p, c) :: st.filter (fun kv => kv.1 != p)

/-- Template path of the nginx virtual-host template. -/
def nginxTmplPath : String := "templates/nginx.conf.tmpl"

/-- Template path of the systemd unit template. -/
def systemdTmplPath : String := "templates/systemd.service.tmpl"

/-- Output path `generated/nginx/<name>.conf`. -/
def nginxOutPath (name : String) : String := "generated/nginx/" ++ name ++ ".conf"

/-- Output path `generated/systemd/<name>.service`. -/
def systemdOutPath (name : String) : String := "generated/systemd/" ++ name ++ ".service"

/-- One `render_service` invocation as a filesystem transformer: read each
template, substitute, write the two outputs; `none` models the uncaught
exception when a template file is missing. -/
def renderServicePass (st : Store) (svc : Svc) : Option Store :=
  match getFile st nginxTmplPath with
  | none => none
  | some nt =>
    let st1 := setFile st (nginxOutPath svc.NAME) (renderTemplate nt (nginxReplacements svc))
    match getFile st1 systemdTmplPath with
    | none => none
    | some sdt =>
      some (setFile st1 (systemdOutPath svc.NAME) (renderTemplate sdt (systemdReplacements svc)))

/-- The descriptor store directory name used in diagnostics (the absolute
prefix is runtime-dependent and irrelevant to the claims). -/
def servicesDirName : String := "services"

/-- The deduplication loop of `load_services`: falsy (empty) names are
dropped, and of each repeated name only the first occurrence is kept. -/
def uniqAux (seen : List String) : List String → List String
  | [] => []
  | n :: rest =>
    if n = "" then uniqAux seen rest
    else if n ∈ seen then uniqAux seen rest
    else n :: uniqAux (n :: seen) rest

/-- Deduplicated requested names in first-seen order. -/
def uniqNames (selected : List String) : List String :=
  uniqAux [] selected

/-- The resolution loop of `load_services`: split the deduplicated names
into the missing ones and the resolved descriptor file names, both in
input order (`avail` holds the names that have a backing file). -/
def resolveNames (avail : List String) : List String → List String × List String
  | [] => ([], [])
  | n :: rest =>
    let acc := resolveNames avail rest
    if n ∈ avail then (acc.1, (n ++ ".yml") :: acc.2)
    else (n :: acc.1, acc.2)

/-- `load_services`: with no selection, every descriptor file sorted by
path; with a selection, every requested name must resolve, and all missing
names abort the batch in one aggregate error. -/
def loadServices (avail : List String) (selected : List String) : Except String (List String) :=
  if selected.isEmpty then
    Except.ok ((avail.map (fun n => n ++ ".yml")).mergeSort (fun a b => a ≤ b))
  else
    let uniq := uniqNames selected
    let res := resolveNames avail uniq
    if res.1.isEmpty then Except.ok res.2
    else
      Except.error ("Service file(s) not found in " ++ servicesDirName ++ ": " ++
        String.intercalate ", " res.1)

/-- The descriptor loop of `main`: parse each file, in strict mode abort on
the first skip signal, in lenient mode drop it; returns the names of the
rendered descriptors in order. -/
def processServices (strict : Bool) : List (String × Yaml) → Except String (List String)
  | [] => Except.ok []
  | (fname, doc) :: rest =>
    match parseService fname doc with
    | Except.ok svc =>
      match processServices strict rest with
      | Except.ok names => Except.ok (svc.NAME :: names)
      | Except.error e => Except.error e
    | Except.error e =>
      if strict then Except.error e else processServices strict rest

/-- The exit accounting of `main` after the loop: `Except.error` models
`SystemExit` with a failure message, `Except.ok 0` a successful exit. -/
def mainRun (strict : Bool) (files : List (String × Yaml)) : Except String Nat :=
  match processServices strict files with
  | Except.error e => Except.error e
  | Except.ok rendered =>
    if rendered.isEmpty then
      if strict then Except.error "No services rendered." else Except.ok 0
    else Except.ok 0

/-- `pat` occurs as a contiguous substring of `t`. -/
def occursStr (pat t : String) : Prop :=
  pat.data <:+: t.data

instance (pat t : String) : Decidable (occursStr pat t) :=
  List.decidableInfix pat.data t.data

/-- Exhibiting a decomposition of the text proves an occurrence. -/
theorem occurs_of_parts (pat t : String) (a b : List Char)
    (h : t.data = a ++ (pat.data ++ b)) : occursStr pat t :=
  ⟨a, b, by rw [h, List.append_assoc]⟩

/-- The full port-80 body and the redirect-only port-80 body are never the
same text: after the shared ACME-challenge preamble one continues with the
main-location comment and the other with the redirect comment. -/
theorem serverBodyFull_ne_redirect (d h lr fl el : String) :
    serverBodyFull d h lr fl el ≠ serverBodyRedirect d := by
  intro heq
  have hd := congrArg String.data heq
  unfold serverBodyFull serverBodyRedirect at hd
  simp only [String.data_append, List.append_assoc] at hd
  have h1 := List.append_cancel_left (List.append_cancel_left hd)
  have h2 := congrArg (fun l => l[112]?) h1
  simp only at h2
  rw [List.getElem?_append_left (by decide)] at h2
  exact absurd h2 (by decide)

/-- C1: with `allowPlainHttp` false the claim expects the plain segment to
be solely an ACME passthrough plus a redirect; the code instead always
emits the full application body in the plain segment, because
`server_body` is only invoked with `include_tls=False`, which makes the
condition `allow_plain_http or not include_tls` true and the redirect
branch unreachable. The plain segment equals the full body for every
descriptor (whatever `ALLOW_PLAIN_HTTP` is) and is never the redirect
body. -/
theorem c1_plain_segment_always_full_body (svc : Svc) (rd lr fl el : String) :
    (buildServerBlocks svc rd lr fl el).1 =
      serverBodyFull svc.DOMAIN svc.HEALTH_PATH lr fl el ∧
    (buildServerBlocks svc rd lr fl el).1 ≠ serverBodyRedirect svc.DOMAIN := by
  have h1 : (buildServerBlocks svc rd lr fl el).1 =
      serverBodyFull svc.DOMAIN svc.HEALTH_PATH lr fl el := by
    unfold buildServerBlocks serverBody
    cases svc.ALLOW_PLAIN_HTTP <;> simp
  exact ⟨h1, by rw [h1]; exact serverBodyFull_ne_redirect _ _ _ _ _⟩

/-- C5 counterexample: a lenient run over an empty store renders zero
descriptors yet exits successfully, contradicting the claim that a run
with zero rendered descriptors always exits with a failure signal. -/
theorem c5_lenient_zero_rendered_succeeds :
    processServices false [] = Except.ok ([] : List String) ∧
    mainRun false [] = Except.ok 0 :=
  ⟨rfl, rfl⟩

/-- C5 (amended): given the loop's outcome, the run exits successfully iff
the run was lenient or at least one descriptor rendered; equivalently it
fails iff the run was strict and zero descriptors rendered. -/
theorem c5_exit_accounting (strict : Bool) (files : List (String × Yaml))
    (rendered : List String) (h : processServices strict files = Except.ok rendered) :
    ((mainRun strict files).isOk = true ↔ (strict = false ∨ rendered ≠ [])) := by
  unfold mainRun
  rw [h]
  cases strict <;> by_cases hr : rendered = [] <;>
    simp [hr, Except.isOk, Except.toBool]

/-- C5 witness: a strict run that renders one descriptor exits
successfully. -/
theorem c5_exit_accounting_witness :
    ((mainRun true [("api.yml", Yaml.map [("name", Yaml.str "api"),
        ("domain", Yaml.str "d"), ("upstream_port", Yaml.str "1"),
        ("start_cmd", Yaml.str "r"), ("working_dir", Yaml.str "/w")])]).isOk = true ↔
      (true = false ∨ (["api"] : List String) ≠ [])) :=
  c5_exit_accounting true _ ["api"] rfl

/-- C8 counterexample: replacements are applied sequentially, so a token
occurring inside a replacement value is substituted by a later mapping
entry; the claim predicts the output `__B__`, but the code produces
`x`. -/
theorem c8_replacement_values_are_rescanned :
    renderTemplate "__A__" [("A", "__B__"), ("B", "x")] = "x" ∧
    ("x" : String) ≠ "__B__" :=
  ⟨rfl, by decide⟩

/-- C10 counterexample: a truthy `proxy_pass` string that strips to the
empty text (here three spaces) also yields a rule with no proxy target, so
the literal boolean false is not the only such value. -/
theorem c10_whitespace_target_also_disables :
    parseLocations (Yaml.list [Yaml.map [("path", Yaml.str "/x"),
        ("proxy_pass", Yaml.str "   ")]]) "h" "p" =
      [{ path := "/x", proxyPass := "", extra := "" }] ∧
    Yaml.str "   " ≠ Yaml.bool false :=
  ⟨rfl, fun h => Yaml.noConfusion h⟩

/-- C4 counterexample: a quoted-empty sentinel in the required `name`
field is not collapsed; the descriptor validates and keeps the
two-character quote literal as its name instead of being skipped. -/
theorem c4_sentinel_kept_in_required_field :
    parseService "svc.yml" (Yaml.map [("name", Yaml.str "\"\""),
        ("domain", Yaml.str "d"), ("upstream_port", Yaml.str "1"),
        ("start_cmd", Yaml.str "run"), ("working_dir", Yaml.str "/w")]) =
      Except.ok
        { NAME := "\"\""
          DOMAIN := "d"
          UPSTREAM_HOST := "127.0.0.1"
          UPSTREAM_PORT := "1"
          WORKING_DIR := "/w"
          USER := "www-data"
          START_CMD := "run"
          STOP_CMD := "/bin/true"
          TYPE := "simple"
          REMAIN_AFTER_EXIT := "no"
          RESTART := "always"
          HEALTH_PATH := "/health"
          STATIC_ROOT := ""
          MIGRATE_CMD := ""
          ALLOW_PLAIN_HTTP := false
          LOCATIONS := [] } ∧
    ("\"\"" : String) ≠ "" :=
  ⟨rfl, by decide⟩

/-- C6 counterexample: the empty requested name has no backing descriptor
file, yet the batch does not fail: empty names are silently dropped during
deduplication. -/
theorem c6_empty_requested_name_not_reported :
    loadServices ["a"] [""] = Except.ok [] ∧ "" ∉ (["a"] : List String) :=
  ⟨rfl, by decide⟩

/-- C3: for every descriptor that validates, the derived unit fields are
determined solely by whether the start command contains a
container-orchestration invocation (after lowercasing): container-style
commands give a one-shot, remain-after-exit, non-restarting unit and all
others a simple, always-restarted unit. -/
theorem c3_unit_fields_from_start_cmd (fname : String) (doc : Yaml) (svc : Svc)
    (h : parseService fname doc = Except.ok svc) :
    (isComposeCmd (pyLower svc.START_CMD) = true →
      svc.TYPE = "oneshot" ∧ svc.REMAIN_AFTER_EXIT = "yes" ∧ svc.RESTART = "no") ∧
    (isComposeCmd (pyLower svc.START_CMD) = false →
      svc.TYPE = "simple" ∧ svc.REMAIN_AFTER_EXIT = "no" ∧ svc.RESTART = "always") := by
  unfold parseService at h
  split at h
  case isTrue hdoc =>
    cases doc with
    | map kvs =>
      simp only [] at h
      split at h
      case isTrue hm =>
        simp only [missingRequired, requiredFields, List.isEmpty_iff, List.map_eq_nil_iff,
          List.filter_eq_nil_iff] at hm
        have hsc0 := hm ("start_cmd", svcGet kvs "start_cmd" (Yaml.str "")) (by simp)
        have hsc : pyTruthy (svcGet kvs "start_cmd" (Yaml.str "")) = true := by
          simpa using hsc0
        injection h with h2
        subst h2
        simp only [hsc]
        by_cases hc : isComposeCmd (pyLower (pyStr (svcGet kvs "start_cmd" (Yaml.str "")))) = true <;>
          simp [hc]
      case isFalse hm => exact absurd h (by simp)
    | null => exact absurd h (by simp)
    | bool b => exact absurd h (by simp)
    | int n => exact absurd h (by simp)
    | str s => exact absurd h (by simp)
    | list xs => exact absurd h (by simp)
  case isFalse hdoc =>
    simp [missingRequired, requiredFields, svcGet, List.lookup, pyTruthy] at h

/-- The record produced for the end-to-end container-style scenario
(`docker compose -f compose.yml up`). -/
def composeExampleSvc : Svc :=
  { NAME := "api"
    DOMAIN := "api.example.com"
    UPSTREAM_HOST := "127.0.0.1"
    UPSTREAM_PORT := "8080"
    WORKING_DIR := "/srv/api"
    USER := "www-data"
    START_CMD := "docker compose -f compose.yml up"
    STOP_CMD := "/bin/true"
    TYPE := "oneshot"
    REMAIN_AFTER_EXIT := "yes"
    RESTART := "no"
    HEALTH_PATH := "/health"
    STATIC_ROOT := ""
    MIGRATE_CMD := ""
    ALLOW_PLAIN_HTTP := false
    LOCATIONS := [] }

/-- C3 witness: the end-to-end scenario descriptor with a
`docker compose` start command parses to a `oneshot`/`yes`/`no` unit. -/
theorem c3_unit_fields_witness :
    (isComposeCmd (pyLower composeExampleSvc.START_CMD) = true →
      composeExampleSvc.TYPE = "oneshot" ∧
      composeExampleSvc.REMAIN_AFTER_EXIT = "yes" ∧
      composeExampleSvc.RESTART = "no") ∧
    (isComposeCmd (pyLower composeExampleSvc.START_CMD) = false →
      composeExampleSvc.TYPE = "simple" ∧
      composeExampleSvc.REMAIN_AFTER_EXIT = "no" ∧
      composeExampleSvc.RESTART = "always") :=
  c3_unit_fields_from_start_cmd "api.yml"
    (Yaml.map [("name", Yaml.str "api"), ("domain", Yaml.str "api.example.com"),
      ("upstream_port", Yaml.str "8080"), ("working_dir", Yaml.str "/srv/api"),
      ("start_cmd", Yaml.str "docker compose -f compose.yml up")])
    composeExampleSvc rfl

/-- C2: with a static root the main-route body carries the
try-static-then-proxy pattern and the cache-control suppression and the
named fallback route is non-empty and proxies to the upstream; without a
static root the main-route body proxies directly to
`http://<host>:<port>` and the fallback fragment is empty. -/
theorem c2_static_bifurcation (s h p : String) :
    (s ≠ "" →
      occursStr "try_files $uri $uri/ @app;" (buildNginxBlocks s h p).2.1 ∧
      occursStr "Cache-Control" (buildNginxBlocks s h p).2.1 ∧
      (buildNginxBlocks s h p).2.2 ≠ "" ∧
      occursStr ("proxy_pass http://" ++ h ++ ":" ++ p ++ ";") (buildNginxBlocks s h p).2.2) ∧
    (s = "" →
      occursStr ("proxy_pass http://" ++ h ++ ":" ++ p ++ ";") (buildNginxBlocks s h p).2.1 ∧
      (buildNginxBlocks s h p).2.2 = "") := by
  constructor
  · intro hs
    have hb : (s != "") = true := by simpa using hs
    refine ⟨?_, ?_, ?_, ?_⟩
    · simp only [buildNginxBlocks, hb, if_true]
      decide
    · simp only [buildNginxBlocks, hb, if_true]
      decide
    · simp only [buildNginxBlocks, hb, if_true]
      intro he
      have hd := congrArg String.data he
      simp [String.data_append] at hd
    · simp only [buildNginxBlocks, hb, if_true]
      refine occurs_of_parts _ _ ("    location @app \x7b\n        ".data)
        ("\n        proxy_set_header Host $host;\n        proxy_set_header X-Real-IP $remote_addr;\n        proxy_set_header X-Forwarded-For $proxy_add_x_forwarded_for;\n        proxy_set_header X-Forwarded-Proto $scheme;\n    \x7d\n".data) ?_
      simp only [String.data_append, List.append_assoc, List.cons_append, List.nil_append]
  · intro hs
    subst hs
    have hgoal : (buildNginxBlocks "" h p).2.1 =
        "        proxy_pass http://" ++ h ++ ":" ++ p ++
          ";\n        proxy_set_header Host $host;\n        proxy_set_header X-Real-IP $remote_addr;\n        proxy_set_header X-Forwarded-For $proxy_add_x_forwarded_for;\n        proxy_set_header X-Forwarded-Proto $scheme;" := by
      simp [buildNginxBlocks]
    have hempty : (buildNginxBlocks "" h p).2.2 = "" := by
      simp [buildNginxBlocks]
    refine ⟨?_, hempty⟩
    rw [hgoal]
    refine occurs_of_parts _ _ ("        ".data)
      ("\n        proxy_set_header Host $host;\n        proxy_set_header X-Real-IP $remote_addr;\n        proxy_set_header X-Forwarded-For $proxy_add_x_forwarded_for;\n        proxy_set_header X-Forwarded-Proto $scheme;".data) ?_
    simp only [String.data_append, List.append_assoc, List.cons_append, List.nil_append]

/-- C2 witness: the bifurcation evaluated with a static root `/srv` and
without one, at upstream `127.0.0.1:8080`. -/
theorem c2_static_bifurcation_witness :
    (occursStr "try_files $uri $uri/ @app;" (buildNginxBlocks "/srv" "127.0.0.1" "8080").2.1 ∧
     occursStr "Cache-Control" (buildNginxBlocks "/srv" "127.0.0.1" "8080").2.1 ∧
     (buildNginxBlocks "/srv" "127.0.0.1" "8080").2.2 ≠ "" ∧
     occursStr ("proxy_pass http://" ++ "127.0.0.1" ++ ":" ++ "8080" ++ ";")
       (buildNginxBlocks "/srv" "127.0.0.1" "8080").2.2) ∧
    (occursStr ("proxy_pass http://" ++ "127.0.0.1" ++ ":" ++ "8080" ++ ";")
       (buildNginxBlocks "" "127.0.0.1" "8080").2.1 ∧
     (buildNginxBlocks "" "127.0.0.1" "8080").2.2 = "") :=
  ⟨(c2_static_bifurcation "/srv" "127.0.0.1" "8080").1 (by decide),
   (c2_static_bifurcation "" "127.0.0.1" "8080").2 rfl⟩

/-- A descriptor mapping parses successfully exactly when no required
field is missing. -/
theorem parseService_map_isOk (fname : String) (kvs : List (String × Yaml)) :
    (parseService fname (Yaml.map kvs)).isOk = (missingRequired kvs).isEmpty := by
  by_cases hk : kvs = []
  · subst hk
    rfl
  · have hT : pyTruthy (Yaml.map kvs) = true := by simp [pyTruthy, hk]
    unfold parseService
    rw [if_pos hT]
    simp only []
    cases he : (missingRequired kvs).isEmpty <;> simp [he, Except.isOk, Except.toBool]

/-- C4 (amended): a descriptor mapping yields a validated record iff
`name`, `domain`, `upstream_port`, `start_cmd` and `working_dir` are all
truthy; when some are not, the skip signal names every absent field in
checking order. Quoted-empty sentinels are not collapsed for the required
fields (they are only collapsed for `static_root`, `migrate_cmd` and
`stop_cmd`), so a required field holding an explicit quote literal counts
as present. -/
theorem c4_required_fields_validation (fname : String) (kvs : List (String × Yaml)) :
    ((parseService fname (Yaml.map kvs)).isOk = true ↔
      (pyTruthy (svcGet kvs "name" (Yaml.str "")) = true ∧
       pyTruthy (svcGet kvs "domain" (Yaml.str "")) = true ∧
       pyTruthy (svcGet kvs "upstream_port" (Yaml.str "")) = true ∧
       pyTruthy (svcGet kvs "start_cmd" (Yaml.str "")) = true ∧
       pyTruthy (svcGet kvs "working_dir" (Yaml.str "")) = true)) ∧
    (missingRequired kvs ≠ [] →
      parseService fname (Yaml.map kvs) =
        Except.error ("Skipping " ++ fname ++ ": missing " ++
          String.intercalate ", " (missingRequired kvs))) := by
  constructor
  · rw [parseService_map_isOk]
    simp [missingRequired, requiredFields, List.isEmpty_iff, List.map_eq_nil_iff,
      List.filter_eq_nil_iff]
  · intro hmr
    by_cases hk : kvs = []
    · subst hk
      rfl
    · have hT : pyTruthy (Yaml.map kvs) = true := by simp [pyTruthy, hk]
      unfold parseService
      rw [if_pos hT]
      simp only []
      rw [if_neg (fun he => hmr (List.isEmpty_iff.mp he))]

/-- C4 witness: a mapping with only `name` present is skipped with a
message naming each missing field. -/
theorem c4_required_fields_validation_witness :
    parseService "x.yml" (Yaml.map [("name", Yaml.str "api")]) =
      Except.error ("Skipping " ++ "x.yml" ++ ": missing " ++
        String.intercalate ", " (missingRequired [("name", Yaml.str "api")])) :=
  (c4_required_fields_validation "x.yml" [("name", Yaml.str "api")]).2 (by decide)

/-- The deduplication loop yields a sublist of its input (first-seen order
is preserved). -/
theorem uniqAux_sublist (seen : List String) (l : List String) :
    List.Sublist (uniqAux seen l) l := by
  induction l generalizing seen with
  | nil => simp [uniqAux]
  | cons n rest ih =>
    unfold uniqAux
    by_cases hn : n = ""
    · rw [if_pos hn]
      exact (ih seen).cons n
    · rw [if_neg hn]
      by_cases hm : n ∈ seen
      · rw [if_pos hm]
        exact (ih seen).cons n
      · rw [if_neg hm]
        exact (ih (n :: seen)).cons₂ n

/-- Membership in the deduplication loop's output: exactly the non-empty
input names that are not already in the seen set. -/
theorem uniqAux_mem (seen : List String) (l : List String) (x : String) :
    x ∈ uniqAux seen l ↔ (x ∈ l ∧ x ≠ "" ∧ x ∉ seen) := by
  induction l generalizing seen with
  | nil => simp [uniqAux]
  | cons n rest ih =>
    unfold uniqAux
    by_cases hn : n = ""
    · subst hn
      rw [if_pos rfl]
      rw [ih]
      constructor
      · rintro ⟨h1, h2, h3⟩
        exact ⟨List.mem_cons_of_mem _ h1, h2, h3⟩
      · rintro ⟨h1, h2, h3⟩
        rcases List.mem_cons.mp h1 with h4 | h4
        · exact absurd h4 h2
        · exact ⟨h4, h2, h3⟩
    · rw [if_neg hn]
      by_cases hm : n ∈ seen
      · rw [if_pos hm, ih]
        constructor
        · rintro ⟨h1, h2, h3⟩
          exact ⟨List.mem_cons_of_mem _ h1, h2, h3⟩
        · rintro ⟨h1, h2, h3⟩
          rcases List.mem_cons.mp h1 with h4 | h4
          · subst h4
            exact absurd hm h3
          · exact ⟨h4, h2, h3⟩
      · rw [if_neg hm]
        rw [List.mem_cons, ih]
        constructor
        · rintro (h1 | ⟨h1, h2, h3⟩)
          · subst h1
            exact ⟨List.mem_cons_self _ _, hn, hm⟩
          · refine ⟨List.mem_cons_of_mem _ h1, h2, ?_⟩
            intro h4
            exact h3 (List.mem_cons_of_mem _ h4)
        · rintro ⟨h1, h2, h3⟩
          by_cases hxn : x = n
          · exact Or.inl hxn
          · right
            rcases List.mem_cons.mp h1 with h4 | h4
            · exact absurd h4 hxn
            · refine ⟨h4, h2, fun h5 => ?_⟩
              rcases List.mem_cons.mp h5 with h6 | h6
              · exact hxn h6
              · exact h3 h6

/-- The deduplication loop's output has no duplicates. -/
theorem uniqAux_nodup (seen : List String) (l : List String) :
    (uniqAux seen l).Nodup := by
  induction l generalizing seen with
  | nil => simp [uniqAux]
  | cons n rest ih =>
    unfold uniqAux
    by_cases hn : n = ""
    · rw [if_pos hn]
      exact ih seen
    · rw [if_neg hn]
      by_cases hm : n ∈ seen
      · rw [if_pos hm]
        exact ih seen
      · rw [if_neg hm]
        refine List.nodup_cons.mpr ⟨?_, ih (n :: seen)⟩
        intro h1
        exact ((uniqAux_mem (n :: seen) rest n).mp h1).2.2 (List.mem_cons_self _ _)

/-- The resolution loop splits the requested names into the missing ones
and the resolved file names, preserving order. -/
theorem resolveNames_eq (avail : List String) (l : List String) :
    (resolveNames avail l).1 = l.filter (fun n => decide (n ∉ avail)) ∧
    (resolveNames avail l).2 = (l.filter (fun n => decide (n ∈ avail))).map (fun n => n ++ ".yml") := by
  induction l with
  | nil => exact ⟨rfl, rfl⟩
  | cons n rest ih =>
    unfold resolveNames
    by_cases hm : n ∈ avail <;>
      simp [hm, List.filter_cons, ih.1, ih.2]

/-- C6 (amended): with a non-empty explicit selection the loader first
drops empty names and deduplicates preserving first-seen order (the result
is a duplicate-free sublist holding exactly the non-empty requested
names); if any surviving name lacks a backing file the whole batch fails
with one error naming every missing entry in order, and no paths are
returned; otherwise it returns the resolved file names in order. -/
theorem c6_selection_resolution (avail selected : List String) (hsel : selected ≠ []) :
    (uniqNames selected).Nodup ∧
    List.Sublist (uniqNames selected) selected ∧
    (∀ x, x ∈ uniqNames selected ↔ (x ∈ selected ∧ x ≠ "")) ∧
    ((uniqNames selected).filter (fun n => decide (n ∉ avail)) ≠ [] →
      loadServices avail selected =
        Except.error ("Service file(s) not found in " ++ servicesDirName ++ ": " ++
          String.intercalate ", " ((uniqNames selected).filter (fun n => decide (n ∉ avail))))) ∧
    ((uniqNames selected).filter (fun n => decide (n ∉ avail)) = [] →
      loadServices avail selected =
        Except.ok (((uniqNames selected).filter (fun n => decide (n ∈ avail))).map
          (fun n => n ++ ".yml"))) := by
  have hne : selected.isEmpty = false := by
    cases selected with
    | nil => exact absurd rfl hsel
    | cons a l => rfl
  have hr := resolveNames_eq avail (uniqNames selected)
  refine ⟨uniqAux_nodup [] selected, uniqAux_sublist [] selected, ?_, ?_, ?_⟩
  · intro x
    unfold uniqNames
    rw [uniqAux_mem]
    simp
  · intro hmiss
    unfold loadServices
    rw [if_neg (by simp [hne])]
    rw [if_neg (fun he => hmiss (by rw [← hr.1]; exact List.isEmpty_iff.mp he))]
    rw [hr.1]
  · intro hmiss
    unfold loadServices
    rw [if_neg (by simp [hne])]
    rw [if_pos (by rw [List.isEmpty_iff, hr.1]; exact hmiss)]
    rw [hr.2]

/-- C6 witness: requesting `b` twice plus the unknown `c`, an empty name
and the unknown `d` against a store holding `a` and `b` fails with one
error naming `c` and `d`. -/
theorem c6_selection_resolution_witness :
    loadServices ["a", "b"] ["b", "b", "c", "", "d"] =
      Except.error ("Service file(s) not found in " ++ servicesDirName ++ ": " ++
        String.intercalate ", " ((uniqNames ["b", "b", "c", "", "d"]).filter
          (fun n => decide (n ∉ (["a", "b"] : List String))))) :=
  (c6_selection_resolution ["a", "b"] ["b", "b", "c", "", "d"] (by decide)).2.2.2.1 (by decide)

/-- The default proxy target is never the empty string. -/
theorem locDefaultProxy_ne_empty (host port : String) : locDefaultProxy host port ≠ "" := by
  intro he
  have hd := congrArg String.data he
  simp [locDefaultProxy, String.data_append] at hd

/-- C10 (amended): for an entry with a truthy path and no prefix
stripping, the normalized rule's target is `resolveProxyPass` of the raw
`proxy_pass` value; a falsy value other than the literal boolean false
(empty string, null, zero) gets the default `http://<host>:<port>` target;
the literal boolean false gets no target; and a rule with no target arises
exactly from the literal boolean false or from a truthy value whose
stringification strips to the empty text. -/
theorem c10_proxy_target_resolution (host port : String) (kvs : List (String × Yaml))
    (rest : List Yaml) (idx : Nat)
    (hpath : pyTruthy (yamlGetRaw kvs "path") = true)
    (hsp : stripPfxFlag (yamlGetRaw kvs "strip_prefix") = false) :
    ((parseLocsGo (locDefaultProxy host port) (Yaml.map kvs :: rest) idx).1 =
      normalizeLocEntry (locDefaultProxy host port) kvs ::
        (parseLocsGo (locDefaultProxy host port) rest (idx + 1)).1) ∧
    ((normalizeLocEntry (locDefaultProxy host port) kvs).proxyPass =
      resolveProxyPass (locDefaultProxy host port) (yamlGetRaw kvs "proxy_pass")) ∧
    (∀ ppv : Yaml, ppv ≠ Yaml.bool false → pyTruthy ppv = false →
      resolveProxyPass (locDefaultProxy host port) ppv = locDefaultProxy host port) ∧
    (resolveProxyPass (locDefaultProxy host port) (Yaml.bool false) = "") ∧
    (∀ ppv : Yaml,
      resolveProxyPass (locDefaultProxy host port) ppv = "" ↔
        (ppv = Yaml.bool false ∨
         (pyTruthy ppv = true ∧ pyStrip (pyStr ppv) = ""))) := by
  refine ⟨?_, ?_, ?_, rfl, ?_⟩
  · simp only [parseLocsGo, hpath, Bool.not_true]
    rw [if_neg (by simp)]
  · unfold normalizeLocEntry
    simp only [hsp, Bool.false_and]
    rw [if_neg (by simp)]
  · intro ppv hne hf
    cases ppv with
    | null => rfl
    | bool b =>
      cases b
      · exact absurd rfl hne
      · simp [pyTruthy] at hf
    | int n => simp [resolveProxyPass, pyTruthy] at hf ⊢; simp [hf]
    | str st => simp [resolveProxyPass, pyTruthy] at hf ⊢; simp [hf]
    | list xs => simp [resolveProxyPass, pyTruthy] at hf ⊢; simp [hf]
    | map m => simp [resolveProxyPass, pyTruthy] at hf ⊢; simp [hf]
  · intro ppv
    cases ppv with
    | null => simp [resolveProxyPass, pyTruthy, locDefaultProxy_ne_empty host port]
    | bool b =>
      cases b
      · simp [resolveProxyPass]
      · simp [resolveProxyPass, pyTruthy]
    | int n =>
      by_cases hn : (n != 0) = true <;>
        simp [resolveProxyPass, pyTruthy, hn, locDefaultProxy_ne_empty host port]
    | str st =>
      by_cases hn : (st != "") = true <;>
        simp [resolveProxyPass, pyTruthy, hn, locDefaultProxy_ne_empty host port]
    | list xs =>
      by_cases hn : xs.isEmpty <;>
        simp [resolveProxyPass, pyTruthy, hn, locDefaultProxy_ne_empty host port]
    | map m =>
      by_cases hn : m.isEmpty <;>
        simp [resolveProxyPass, pyTruthy, hn, locDefaultProxy_ne_empty host port]

/-- C10 witness: an entry whose `proxy_pass` key holds the empty string is
normalized at the head of the rule list, and the empty string resolves to
the default target. -/
theorem c10_proxy_target_resolution_witness :
    ((parseLocsGo (locDefaultProxy "h" "p")
        [Yaml.map [("path", Yaml.str "/x"), ("proxy_pass", Yaml.str "")]] 1).1 =
      normalizeLocEntry (locDefaultProxy "h" "p")
          [("path", Yaml.str "/x"), ("proxy_pass", Yaml.str "")] ::
        (parseLocsGo (locDefaultProxy "h" "p") [] 2).1) ∧
    resolveProxyPass (locDefaultProxy "h" "p") (Yaml.str "") = locDefaultProxy "h" "p" :=
  ⟨(c10_proxy_target_resolution "h" "p" [("path", Yaml.str "/x"), ("proxy_pass", Yaml.str "")]
      [] 1 (by decide) (by decide)).1,
   (c10_proxy_target_resolution "h" "p" [("path", Yaml.str "/x"), ("proxy_pass", Yaml.str "")]
      [] 1 (by decide) (by decide)).2.2.1 (Yaml.str "") (fun h => Yaml.noConfusion h) rfl⟩

/-- The lines contributed by a rule's `extra` text: one line per source
line, right-trimmed and re-indented, blank lines becoming indent-only
lines. -/
def extraDirectiveLines (extra : String) : List String :=
  if extra != "" then
    (pySplitlines extra).map (fun raw =>
      let r := pyRstrip raw
      if r != "" then "        " ++ r else "        ")
  else []

/-- C7: a rule with no proxy target renders as just the location header,
the re-indented `extra` lines and the closing brace (zero proxy
directives), while a rule with a target carries the renderer's own
`proxy_pass` line; every supplied `extra` line is included either way; a
location entry without a truthy `path` is dropped from normalization with
a warning while the remaining entries are still processed; and the
`locations` value never affects whether the descriptor itself validates,
so a dropped entry is never fatal, in strict mode as in lenient mode. -/
theorem c7_disabled_proxy_and_dropped_paths :
    (∀ loc : LocRule, loc.proxyPass = "" →
      renderLocLines loc =
        ["    location " ++ loc.path ++ " \x7b"] ++ extraDirectiveLines loc.extra ++ ["    \x7d"]) ∧
    (∀ loc : LocRule, loc.proxyPass ≠ "" →
      ("        proxy_pass " ++ loc.proxyPass ++ ";") ∈ renderLocLines loc) ∧
    (∀ loc : LocRule, ∀ raw ∈ pySplitlines loc.extra,
      (pyRstrip raw ≠ "" → ("        " ++ pyRstrip raw) ∈ renderLocLines loc) ∧
      (pyRstrip raw = "" → ("        " : String) ∈ renderLocLines loc)) ∧
    (∀ dp : String, ∀ kvs : List (String × Yaml), ∀ rest : List Yaml, ∀ idx : Nat,
      pyTruthy (yamlGetRaw kvs "path") = false →
      parseLocsGo dp (Yaml.map kvs :: rest) idx =
        ((parseLocsGo dp rest (idx + 1)).1,
         ("Ignoring locations[" ++ toString idx ++ "] (missing path)") ::
           (parseLocsGo dp rest (idx + 1)).2)) ∧
    (∀ fname : String, ∀ v v' : Yaml, ∀ kvs : List (String × Yaml),
      (parseService fname (Yaml.map (("locations", v) :: kvs))).isOk =
        (parseService fname (Yaml.map (("locations", v') :: kvs))).isOk) := by
  refine ⟨?_, ?_, ?_, ?_, ?_⟩
  · intro loc hpp
    simp [renderLocLines, extraDirectiveLines, hpp]
  · intro loc hpp
    have hb : (loc.proxyPass != "") = true := by simpa using hpp
    simp [renderLocLines, hb]
  · intro loc raw hraw
    have hne : loc.extra ≠ "" := by
      intro he
      rw [he] at hraw
      simp [pySplitlines, normalizeCRLF, slGo] at hraw
    have hb : (loc.extra != "") = true := by simpa using hne
    constructor
    · intro hr
      have hbr : (pyRstrip raw != "") = true := by simpa using hr
      simp only [renderLocLines, hb, eq_self_iff_true, if_true, List.mem_append, List.mem_cons,
        List.mem_map]
      refine Or.inl (Or.inr ⟨raw, hraw, ?_⟩)
      simp [hbr]
    · intro hr
      have hbr : (pyRstrip raw != "") = false := by simpa using hr
      simp only [renderLocLines, hb, eq_self_iff_true, if_true, List.mem_append, List.mem_cons,
        List.mem_map]
      refine Or.inl (Or.inr ⟨raw, hraw, ?_⟩)
      simp [hbr, hr]
  · intro dp kvs rest idx hpf
    simp only [parseLocsGo, hpf, Bool.not_false]
    rw [if_pos trivial]
  · intro fname v v' kvs
    rw [parseService_map_isOk, parseService_map_isOk]
    have hmr : missingRequired (("locations", v) :: kvs) =
        missingRequired (("locations", v') :: kvs) := by
      simp [missingRequired, requiredFields, svcGet, List.lookup]
    rw [hmr]

/-- C7 witness: a proxy-disabled rule renders header, extra lines and
closing brace only; a path-less entry at index 1 is dropped with a
warning; and junk locations leave descriptor validation unchanged. -/
theorem c7_disabled_proxy_witness :
    (renderLocLines ⟨"/x", "", "keep"⟩ =
      ["    location " ++ "/x" ++ " \x7b"] ++ extraDirectiveLines "keep" ++ ["    \x7d"]) ∧
    (parseLocsGo "d" [Yaml.map [("x", Yaml.int 1)]] 1 =
      ((parseLocsGo "d" [] 2).1,
       ("Ignoring locations[" ++ toString 1 ++ "] (missing path)") :: (parseLocsGo "d" [] 2).2)) ∧
    ((parseService "f" (Yaml.map [("locations", Yaml.list [Yaml.map [("x", Yaml.int 1)]])])).isOk =
      (parseService "f" (Yaml.map [("locations", Yaml.null)])).isOk) :=
  ⟨c7_disabled_proxy_and_dropped_paths.1 ⟨"/x", "", "keep"⟩ rfl,
   c7_disabled_proxy_and_dropped_paths.2.2.2.1 "d" [("x", Yaml.int 1)] [] 1 (by decide),
   c7_disabled_proxy_and_dropped_paths.2.2.2.2 "f"
     (Yaml.list [Yaml.map [("x", Yaml.int 1)]]) Yaml.null []⟩

/-- `repGo` does not depend on the fuel as long as it bounds the text
length. -/
theorem repGo_fuel_eq (fuel : Nat) (fuel' : Nat) (t p r : List Char)
    (h : t.length ≤ fuel) (h' : t.length ≤ fuel') :
    repGo fuel t p r = repGo fuel' t p r := by
  induction fuel generalizing fuel' t with
  | zero =>
    cases t with
    | nil => cases fuel' <;> rfl
    | cons c rest => simp at h
  | succ f ih =>
    cases t with
    | nil => cases fuel' <;> rfl
    | cons c rest =>
      cases fuel' with
      | zero => simp at h'
      | succ f' =>
        have hr : rest.length ≤ f := by simpa using Nat.le_of_succ_le_succ (by simpa using h)
        have hr' : rest.length ≤ f' := by simpa using Nat.le_of_succ_le_succ (by simpa using h')
        simp only [repGo]
        by_cases hc : p ≠ [] ∧ p.isPrefixOf (c :: rest)
        · rw [if_pos hc, if_pos hc]
          congr 1
          have hp : 0 < p.length := List.length_pos.mpr hc.1
          apply ih
          · simp only [List.length_drop, List.length_cons]
            omega
          · simp only [List.length_drop, List.length_cons]
            omega
        · rw [if_neg hc, if_neg hc]
          by_cases he : p.isEmpty = true
          · rw [if_pos he, if_pos he]
            have := ih f' rest hr hr'
            rw [this]
          · rw [if_neg he, if_neg he]
            rw [ih f' rest hr hr']

/-- When the pattern is non-empty and does not occur in the text, `repGo`
returns the text unchanged. -/
theorem repGo_no_occurrence (fuel : Nat) (t p r : List Char)
    (hf : t.length ≤ fuel) (hp : p ≠ []) (h : ¬ p <:+: t) :
    repGo fuel t p r = t := by
  have he : p.isEmpty = false := by
    cases p with
    | nil => exact absurd rfl hp
    | cons a l => rfl
  induction fuel generalizing t with
  | zero =>
    cases t with
    | nil => simp [repGo, he]
    | cons c rest => simp at hf
  | succ f ih =>
    cases t with
    | nil => simp [repGo, he]
    | cons c rest =>
      simp only [repGo]
      have hc : ¬(p ≠ [] ∧ p.isPrefixOf (c :: rest)) := by
        rintro ⟨h1, h2⟩
        exact h (List.isPrefixOf_iff_prefix.mp h2).isInfix
      rw [if_neg hc]
      rw [if_neg (by simp [he])]
      have hrest : rest.length ≤ f := by simpa using Nat.le_of_succ_le_succ (by simpa using hf)
      rw [ih rest hrest (fun hinf => h (List.infix_cons hinf))]

/-- `replaceL` leaves a text without an occurrence of the (non-empty)
pattern unchanged. -/
theorem replaceL_no_occurrence (t p r : List Char) (hp : p ≠ []) (h : ¬ p <:+: t) :
    replaceL t p r = t :=
  repGo_no_occurrence t.length t p r (Nat.le_refl _) hp h

/-- A leading occurrence of the (non-empty) pattern is replaced by the
replacement text, which is not rescanned; scanning continues after it. -/
theorem replaceL_head (p b r : List Char) (hp : p ≠ []) :
    replaceL (p ++ b) p r = r ++ replaceL b p r := by
  cases p with
  | nil => exact absurd rfl hp
  | cons q qs =>
    show repGo ((q :: qs) ++ b).length ((q :: qs) ++ b) (q :: qs) r = _
    simp only [List.cons_append, List.length_cons]
    simp only [repGo]
    rw [if_pos ⟨hp, List.isPrefixOf_iff_prefix.mpr ⟨b, by simp⟩⟩]
    congr 1
    simp only [List.length_cons, List.drop_succ_cons]
    rw [List.drop_left]
    exact repGo_fuel_eq _ _ b (q :: qs) r (by simp) (Nat.le_refl _)

/-- A substitution token is never the empty string. -/
theorem token_ne_empty (k : String) : ("__" ++ k ++ "__" : String) ≠ "" := by
  intro he
  have hd := congrArg String.data he
  simp [String.data_append] at hd

/-- A substitution token's character list is never empty. -/
theorem token_data_ne_nil (k : String) : ("__" ++ k ++ "__" : String).data ≠ [] := by
  intro hd
  exact token_ne_empty k (String.ext (by rw [hd]))

/-- `pyReplace` leaves a text without an occurrence of the (non-empty)
pattern unchanged. -/
theorem pyReplace_not_occurs (s pat rep : String) (hp : pat.data ≠ [])
    (h : ¬ occursStr pat s) : pyReplace s pat rep = s := by
  unfold pyReplace
  rw [replaceL_no_occurrence _ _ _ hp h]

/-- Tokens of names never mentioned by the mapping are left verbatim: if
no mapping entry's token occurs in the document, it is unchanged. -/
theorem renderTemplate_unresolved (t : String) (reps : List (String × String))
    (h : ∀ kv ∈ reps, ¬ occursStr ("__" ++ kv.1 ++ "__") t) :
    renderTemplate t reps = t := by
  induction reps with
  | nil => rfl
  | cons kv rest ih =>
    unfold renderTemplate
    simp only [List.foldl_cons]
    rw [pyReplace_not_occurs _ _ _ (token_data_ne_nil kv.1) (h kv (List.mem_cons_self _ _))]
    exact ih (fun kv' hkv' => h kv' (List.mem_cons_of_mem _ hkv'))

/-- One substitution step: a document starting with the first entry's
token has that occurrence replaced by the entry's value as literal text,
and the remaining entries are then applied to the whole result, including
the just-inserted value. -/
theorem renderTemplate_step (k v : String) (b : List Char) (rest : List (String × String)) :
    renderTemplate (String.mk (("__" ++ k ++ "__").data ++ b)) ((k, v) :: rest) =
      renderTemplate (String.mk (v.data ++ replaceL b ("__" ++ k ++ "__").data v.data)) rest := by
  unfold renderTemplate
  simp only [List.foldl_cons]
  congr 1
  unfold pyReplace
  congr 1
  exact replaceL_head _ _ _ (token_data_ne_nil k)

/-- C8 (amended): `render_template` substitutes sequentially in mapping
order: each occurrence of a mapped token is replaced by its value as
literal text without rescanning that value with the same token, but later
mapping entries do operate on the whole intermediate text, so a token
inside a replacement value is expanded when its name appears later in the
mapping; tokens of names no entry mentions are left verbatim. -/
theorem c8_sequential_literal_substitution :
    (∀ (t : String) (reps : List (String × String)),
      (∀ kv ∈ reps, ¬ occursStr ("__" ++ kv.1 ++ "__") t) → renderTemplate t reps = t) ∧
    (∀ (k v : String) (b : List Char) (rest : List (String × String)),
      renderTemplate (String.mk (("__" ++ k ++ "__").data ++ b)) ((k, v) :: rest) =
        renderTemplate (String.mk (v.data ++ replaceL b ("__" ++ k ++ "__").data v.data)) rest) :=
  ⟨renderTemplate_unresolved, renderTemplate_step⟩

/-- C8 witness: an unmapped token survives unchanged, and a leading
mapped token is substituted with scanning continuing behind it. -/
theorem c8_sequential_literal_substitution_witness :
    renderTemplate "__Z__" [("A", "1")] = "__Z__" ∧
    renderTemplate (String.mk (("__" ++ "A" ++ "__").data ++ "!".data)) [("A", "1")] =
      renderTemplate (String.mk ("1".data ++ replaceL "!".data ("__" ++ "A" ++ "__").data "1".data)) [] :=
  ⟨c8_sequential_literal_substitution.1 "__Z__" [("A", "1")] (by decide),
   c8_sequential_literal_substitution.2 "A" "1" "!".data []⟩

/-- The nginx output path never collides with the nginx template path. -/
theorem nginxOut_ne_nginxTmpl (n : String) : nginxOutPath n ≠ nginxTmplPath := by
  intro h
  have hd := congrArg String.data h
  simp [nginxOutPath, nginxTmplPath, String.data_append] at hd

/-- The nginx output path never collides with the systemd template path. -/
theorem nginxOut_ne_systemdTmpl (n : String) : nginxOutPath n ≠ systemdTmplPath := by
  intro h
  have hd := congrArg String.data h
  simp [nginxOutPath, systemdTmplPath, String.data_append] at hd

/-- The systemd output path never collides with the nginx template path. -/
theorem systemdOut_ne_nginxTmpl (n : String) : systemdOutPath n ≠ nginxTmplPath := by
  intro h
  have hd := congrArg String.data h
  simp [systemdOutPath, nginxTmplPath, String.data_append] at hd

/-- The systemd output path never collides with the systemd template
path. -/
theorem systemdOut_ne_systemdTmpl (n : String) : systemdOutPath n ≠ systemdTmplPath := by
  intro h
  have hd := congrArg String.data h
  simp [systemdOutPath, systemdTmplPath, String.data_append] at hd

/-- The two output paths never collide (they differ at the directory
component). -/
theorem nginxOut_ne_systemdOut (n m : String) : nginxOutPath n ≠ systemdOutPath m := by
  intro h
  have hd := congrArg String.data h
  simp only [nginxOutPath, systemdOutPath, String.data_append, List.append_assoc] at hd
  have h2 := congrArg (fun l => l[10]?) hd
  simp only at h2
  rw [List.getElem?_append_left (by decide), List.getElem?_append_left (by decide)] at h2
  exact absurd h2 (by decide)

/-- Erasing bindings of one path does not affect lookups of another. -/
theorem lookup_filter_ne (st : Store) (p q : String) (h : q ≠ p) :
    List.lookup q (st.filter (fun kv => kv.1 != p)) = List.lookup q st := by
  induction st with
  | nil => rfl
  | cons kv rest ih =>
    obtain ⟨k, v⟩ := kv
    by_cases hk : k = p
    · subst hk
      have hq : (q == k) = false := beq_false_of_ne h
      simp [List.filter_cons, List.lookup, hq, ih]
    · have hk2 : (k != p) = true := by simpa using hk
      simp only [List.filter_cons, hk2, if_true]
      simp [List.lookup, ih]

/-- Reading another path after a write sees the previous store. -/
theorem getFile_setFile_ne (st : Store) (p c q : String) (h : q ≠ p) :
    getFile (setFile st p c) q = getFile st q := by
  unfold getFile setFile
  have hq : (q == p) = false := beq_false_of_ne h
  simp [List.lookup, hq, lookup_filter_ne st p q h]

/-- Re-writing the same two distinct paths with the same contents leaves
the store unchanged. -/
theorem setFile_idem_pair (st : Store) (p1 c1 p2 c2 : String) (h : p1 ≠ p2) :
    setFile (setFile (setFile (setFile st p1 c1) p2 c2) p1 c1) p2 c2 =
      setFile (setFile st p1 c1) p2 c2 := by
  unfold setFile
  have h12 : (p1 != p2) = true := by simpa using h
  have h21 : (p2 != p1) = true := by simpa using (Ne.symm h)
  simp only [List.filter_cons, h12, h21, bne_self_eq_false, if_true, if_false,
    List.filter_filter]
  simp [List.filter_filter, Bool.and_comm, Bool.and_left_comm, Bool.and_assoc]

/-- C9: rendering one service is idempotent on the filesystem: running
`render_service` a second time on the state it produced reads the same
templates (output paths never shadow template paths), computes the same
two documents and overwrites both outputs with identical bytes, leaving
the store unchanged. -/
theorem c9_render_idempotent (st : Store) (svc : Svc) (st' : Store)
    (h : renderServicePass st svc = some st') :
    renderServicePass st' svc = some st' := by
  unfold renderServicePass at h ⊢
  cases hnt : getFile st nginxTmplPath with
  | none =>
    rw [hnt] at h
    simp at h
  | some nt =>
    rw [hnt] at h
    simp only [] at h
    cases hsd : getFile (setFile st (nginxOutPath svc.NAME)
        (renderTemplate nt (nginxReplacements svc))) systemdTmplPath with
    | none =>
      rw [hsd] at h
      simp at h
    | some sdt =>
      rw [hsd] at h
      simp only [Option.some.injEq] at h
      have hsdst : getFile st systemdTmplPath = some sdt := by
        rw [← hsd, getFile_setFile_ne _ _ _ _ (Ne.symm (nginxOut_ne_systemdTmpl svc.NAME))]
      have hnt' : getFile st' nginxTmplPath = some nt := by
        rw [← h, getFile_setFile_ne _ _ _ _ (Ne.symm (systemdOut_ne_nginxTmpl svc.NAME)),
          getFile_setFile_ne _ _ _ _ (Ne.symm (nginxOut_ne_nginxTmpl svc.NAME))]
        exact hnt
      rw [hnt']
      simp only []
      have hsd' : getFile (setFile st' (nginxOutPath svc.NAME)
          (renderTemplate nt (nginxReplacements svc))) systemdTmplPath = some sdt := by
        rw [getFile_setFile_ne _ _ _ _ (Ne.symm (nginxOut_ne_systemdTmpl svc.NAME)),
          ← h, getFile_setFile_ne _ _ _ _ (Ne.symm (systemdOut_ne_systemdTmpl svc.NAME))]
        exact hsd
      rw [hsd']
      simp only [Option.some.injEq]
      rw [← h]
      exact setFile_idem_pair st (nginxOutPath svc.NAME) _ (systemdOutPath svc.NAME) _
        (nginxOut_ne_systemdOut svc.NAME svc.NAME)

/-- C9 witness: re-running the render pass on the store it produced (empty
templates, service `api`) returns that store unchanged. -/
theorem c9_render_idempotent_witness :
    renderServicePass
        [(systemdOutPath "api", ""), (nginxOutPath "api", ""),
         (nginxTmplPath, ""), (systemdTmplPath, "")] composeExampleSvc =
      some [(systemdOutPath "api", ""), (nginxOutPath "api", ""),
        (nginxTmplPath, ""), (systemdTmplPath, "")] :=
  c9_render_idempotent [(nginxTmplPath, ""), (systemdTmplPath, "")] composeExampleSvc
    [(systemdOutPath "api", ""), (nginxOutPath "api", ""),
     (nginxTmplPath, ""), (systemdTmplPath, "")] rfl
